import Mathlib

/-!
Shallow embedding of the QuantumAI registry contract
(`smartcontract/Quantum.sol`, contracts `QuantumAiStorage`,
`QuantumAiPayments`, `QuantumAiDatasets`, `QuantumAiPurchase`, `QuantumAi`).

Addresses are modelled as `Nat` (0 is the zero address), `uint48`/`uint128`
values as `Nat` together with explicit bounds checks where Solidity 0.8
checked arithmetic would revert, strings as `String`.  Each external
function becomes a Lean function from its arguments and the contract state
to `Except SolError ContractState` (revert = `.error`, EVM state rollback on
revert = the caller keeps the old state).  The OpenZeppelin
`ReentrancyGuard` status slot is the `locked` field; `nonReentrant` is the
entry check on that field.  The external ERC-20 `transferFrom` call is an
oracle parameter `TransferOutcome`: the token call can revert, return
`true`, or return `false`; the Solidity code only propagates the revert and
ignores the returned boolean, and the embedding mirrors exactly that.
-/

/-- Width bound of a Solidity `uint48` (the `views`/`downloads` counters). -/
def UINT48_MOD : Nat := 2 ^ 48

/-- Width bound of a Solidity `uint128` (prices and earnings). -/
def UINT128_MOD : Nat := 2 ^ 128

/-- The `Dataset` struct of `QuantumAiStorage`. -/
structure Dataset where
  datasetCID : String
  analysisCID : String
  uploader : Nat
  isPublic : Bool
  isPrivate : Bool
  timestamp : Nat
  views : Nat
  downloads : Nat
  isPaid : Bool
  priceInFIL : Nat
  earnings : Nat
  deriving Repr, DecidableEq

/-- The all-zero `Dataset`, i.e. the value a Solidity mapping reports for a
key that was never written. -/
def defaultDataset : Dataset :=
  { datasetCID := "", analysisCID := "", uploader := 0, isPublic := false,
    isPrivate := false, timestamp := 0, views := 0, downloads := 0,
    isPaid := false, priceInFIL := 0, earnings := 0 }

/-- The `PaymentToken` struct of `QuantumAiStorage`. -/
structure PaymentToken where
  tokenAddress : Nat
  isAccepted : Bool
  symbol : String
  deriving Repr, DecidableEq

/-- The default (never-written) `PaymentToken` mapping entry. -/
def defaultPaymentToken : PaymentToken :=
  { tokenAddress := 0, isAccepted := false, symbol := "" }

/-- The storage of the contract hierarchy rooted at `QuantumAiStorage`,
plus the `ReentrancyGuard` status (`locked`) and the `Ownable` owner. -/
structure ContractState where
  cidExists : String → Bool
  datasets : Nat → Dataset
  userUploads : Nat → List Nat
  hasAccess : Nat → Nat → Bool
  publisherEarnings : Nat → Nat
  totalPlatformEarnings : Nat
  paymentTokens : Nat → PaymentToken
  acceptedTokenByIndex : Nat → Nat
  acceptedTokenCount : Nat
  datasetCount : Nat
  owner : Nat
  locked : Bool

/-- Contract state right after the constructor ran with `deployer` as
`msg.sender`: every mapping empty, every counter zero. -/
def initialState (deployer : Nat) : ContractState :=
  { cidExists := fun _ => false
    datasets := fun _ => defaultDataset
    userUploads := fun _ => []
    hasAccess := fun _ _ => false
    publisherEarnings := fun _ => 0
    totalPlatformEarnings := 0
    paymentTokens := fun _ => defaultPaymentToken
    acceptedTokenByIndex := fun _ => 0
    acceptedTokenCount := 0
    datasetCount := 0
    owner := deployer
    locked := false }

/-- The distinct revert reasons of the contract (`require` strings,
the `ReentrancyGuard` revert, and the Solidity 0.8 checked-arithmetic
panic). -/
inductive SolError where
  | cidExistsErr
  | cidEmpty
  | publicPrivate
  | privateNotPaid
  | priceZero
  | notPublic
  | free
  | already
  | own
  | token
  | noView
  | noDownload
  | notOwner
  | zeroToken
  | tokenExists
  | reentrant
  | transferFailed
  | overflow
  deriving Repr, DecidableEq

/-- Result reported by the external ERC-20 `transferFrom` call:
the token contract can revert, return `true`, or return `false`. -/
inductive TransferOutcome where
  | success
  | returnedFalse
  | reverted
  deriving Repr, DecidableEq

/-- `true` on `.ok _`, `false` on `.error _`. -/
def exceptIsOk (r : Except SolError ContractState) : Bool :=
  match r with
  | .ok _ => true
  | .error _ => false

/-- The `canView` modifier of `QuantumAiDatasets`:
`d.uploader == msg.sender || (d.isPublic && !d.isPrivate)`. -/
def canView (sender id : Nat) (s : ContractState) : Bool :=
  let d := s.datasets id
  d.uploader == sender || (d.isPublic && !d.isPrivate)

/-- The `canDownload` modifier of `QuantumAiPurchase`:
`d.uploader == msg.sender || !d.isPaid || hasAccess[id][msg.sender]`. -/
def canDownload (sender id : Nat) (s : ContractState) : Bool :=
  let d := s.datasets id
  d.uploader == sender || !d.isPaid || s.hasAccess id sender

/-- `uploadDataset` of `QuantumAiDatasets` (`nonReentrant`); `now` is
`block.timestamp`. Checks appear in source order; the `uint128(_price)`
and `uint48(block.timestamp)` casts truncate. -/
def uploadDataset (sender now : Nat) (cid analysis : String)
    (pub priv paid : Bool) (price : Nat) (s : ContractState) :
    Except SolError ContractState :=
  if s.locked then .error .reentrant
  else if s.cidExists cid then .error .cidExistsErr
  else if cid.length = 0 then .error .cidEmpty
  else if pub && priv then .error .publicPrivate
  else if priv && paid then .error .privateNotPaid
  else if paid && price == 0 then .error .priceZero
  else
    .ok { s with
      cidExists := fun c => if c = cid then true else s.cidExists c
      datasetCount := s.datasetCount + 1
      datasets := fun j =>
        if j = s.datasetCount then
          { datasetCID := cid, analysisCID := analysis, uploader := sender,
            isPublic := pub, isPrivate := priv, timestamp := now % UINT48_MOD,
            views := 0, downloads := 0, isPaid := paid,
            priceInFIL := price % UINT128_MOD, earnings := 0 }
        else s.datasets j
      userUploads := fun u =>
        if u = sender then s.userUploads u ++ [s.datasetCount]
        else s.userUploads u }

/-- `getDataset` of `QuantumAiDatasets` (guarded by `canView`). -/
def getDataset (sender id : Nat) (s : ContractState) : Except SolError Dataset :=
  if canView sender id s then .ok (s.datasets id) else .error .noView

/-- `incrementViews` of `QuantumAiDatasets` (guarded by `canView`);
`datasets[id].views++` reverts on `uint48` overflow under Solidity 0.8
checked arithmetic. -/
def incrementViews (sender id : Nat) (s : ContractState) :
    Except SolError ContractState :=
  if canView sender id s then
    if (s.datasets id).views + 1 < UINT48_MOD then
      .ok { s with datasets := fun j =>
        if j = id then
          { s.datasets id with views := (s.datasets id).views + 1 }
        else s.datasets j }
    else .error .overflow
  else .error .noView

/-- `incrementDownloads` of `QuantumAiPurchase` (guarded by `canDownload`);
`datasets[id].downloads++` reverts on `uint48` overflow. -/
def incrementDownloads (sender id : Nat) (s : ContractState) :
    Except SolError ContractState :=
  if canDownload sender id s then
    if (s.datasets id).downloads + 1 < UINT48_MOD then
      .ok { s with datasets := fun j =>
        if j = id then
          { s.datasets id with downloads := (s.datasets id).downloads + 1 }
        else s.datasets j }
    else .error .overflow
  else .error .noDownload

/-- `purchaseDataset` of `QuantumAiPurchase` (`nonReentrant`).  The five
`require`s appear in source order; then the external `transferFrom` runs
(its revert aborts the call, its returned boolean is ignored — exactly as
in the source, which does not check the return value); then the effect
writes, whose `uint128` checked additions revert on overflow. -/
def purchaseDataset (sender id tok : Nat) (outcome : TransferOutcome)
    (s : ContractState) : Except SolError ContractState :=
  if s.locked then .error .reentrant
  else if !((s.datasets id).isPublic && !(s.datasets id).isPrivate) then
    .error .notPublic
  else if !(s.datasets id).isPaid then .error .free
  else if s.hasAccess id sender then .error .already
  else if (s.datasets id).uploader == sender then .error .own
  else if !(s.paymentTokens tok).isAccepted then .error .token
  else if outcome = TransferOutcome.reverted then .error .transferFailed
  else if (s.datasets id).earnings + (s.datasets id).priceInFIL < UINT128_MOD then
    if s.publisherEarnings (s.datasets id).uploader + (s.datasets id).priceInFIL
        < UINT128_MOD then
      if s.totalPlatformEarnings + (s.datasets id).priceInFIL < UINT128_MOD then
        .ok { s with
          hasAccess := fun j u =>
            if j = id ∧ u = sender then true else s.hasAccess j u
          datasets := fun j =>
            if j = id then
              { s.datasets id with
                earnings := (s.datasets id).earnings + (s.datasets id).priceInFIL }
            else s.datasets j
          publisherEarnings := fun u =>
            if u = (s.datasets id).uploader then
              s.publisherEarnings u + (s.datasets id).priceInFIL
            else s.publisherEarnings u
          totalPlatformEarnings :=
            s.totalPlatformEarnings + (s.datasets id).priceInFIL }
      else .error .overflow
    else .error .overflow
  else .error .overflow

/-- `addPaymentToken` of `QuantumAiPayments` (`onlyOwner`). -/
def addPaymentToken (sender tok : Nat) (symbol : String) (s : ContractState) :
    Except SolError ContractState :=
  if !(s.owner == sender) then .error .notOwner
  else if tok == 0 then .error .zeroToken
  else if (s.paymentTokens tok).isAccepted then .error .tokenExists
  else
    .ok { s with
      paymentTokens := fun t =>
        if t = tok then { tokenAddress := tok, isAccepted := true, symbol := symbol }
        else s.paymentTokens t
      acceptedTokenByIndex := fun i =>
        if i = s.acceptedTokenCount then tok else s.acceptedTokenByIndex i
      acceptedTokenCount := s.acceptedTokenCount + 1 }

/-- `isTokenAccepted` of `QuantumAiPayments`. -/
def isTokenAccepted (tok : Nat) (s : ContractState) : Bool :=
  (s.paymentTokens tok).isAccepted

/-- `totalDatasets` of `QuantumAiDatasets`. -/
def totalDatasets (s : ContractState) : Nat := s.datasetCount

/-- A dataset qualifies for the public listing iff
`isPublic && !isPrivate` (the filter of `getPublicDatasetPage`). -/
def qualifies (d : Dataset) : Bool := d.isPublic && !d.isPrivate

/-- The first loop of `getPublicDatasetPage`: the number of qualifying
ids below `datasetCount`. -/
def countQualifying (s : ContractState) : Nat :=
  ((List.range s.datasetCount).filter (fun i => qualifies (s.datasets i))).length

/-- The second loop of `getPublicDatasetPage`, recursing over the id
range with the running qualifying-index `c`: a qualifying dataset is
collected when `start ≤ c < endd`, and the loop breaks as soon as the
incremented index reaches `endd`. -/
def pageGo (s : ContractState) (start endd : Nat) :
    List Nat → Nat → List Dataset
  | [], _ => []
  | i :: rest, c =>
    if qualifies (s.datasets i) then
      (if start ≤ c ∧ c < endd then [s.datasets i] else []) ++
        (if endd ≤ c + 1 then [] else pageGo s start endd rest (c + 1))
    else pageGo s start endd rest c

/-- `getPublicDatasetPage` of `QuantumAi`: count the qualifying total;
if `start ≥ total` return `([], 0)`; otherwise cap `end` at the total and
collect the qualifying window, returning `end` as the next cursor. -/
def getPublicDatasetPage (s : ContractState) (start limit : Nat) :
    List Dataset × Nat :=
  let total := countQualifying s
  if total ≤ start then ([], 0)
  else
    let endd := min (start + limit) total
    (pageGo s start endd (List.range s.datasetCount) 0, endd)

/-- `getMyPurchasedIds` of `QuantumAi`. -/
def getMyPurchasedIds (sender : Nat) (s : ContractState) : List Nat :=
  (List.range s.datasetCount).filter
    (fun i => s.hasAccess i sender && !((s.datasets i).uploader == sender))

/-- The spec-side description of the public listing: the datasets
satisfying `isPublic ∧ ¬isPrivate`, in ascending id order. -/
def publicDatasetsAsc (s : ContractState) : List Dataset :=
  ((List.range s.datasetCount).filter (fun i => qualifies (s.datasets i))).map
    (fun i => s.datasets i)

/-- The externally callable mutating operations, with their call
arguments (`now` standing for `block.timestamp` on upload, and the
external token call outcome on purchase). -/
inductive Op where
  | upload (sender now : Nat) (cid analysis : String)
      (pub priv paid : Bool) (price : Nat)
  | purchase (sender id tok : Nat) (outcome : TransferOutcome)
  | incViews (sender id : Nat)
  | incDownloads (sender id : Nat)
  | addToken (sender tok : Nat) (symbol : String)

/-- Run one operation against the ledger: a revert leaves the state
unchanged, a successful call commits its new state. -/
def stepOp (o : Op) (s : ContractState) : ContractState :=
  match o with
  | .upload sender now cid analysis pub priv paid price =>
    match uploadDataset sender now cid analysis pub priv paid price s with
    | .ok s' => s'
    | .error _ => s
  | .purchase sender id tok outcome =>
    match purchaseDataset sender id tok outcome s with
    | .ok s' => s'
    | .error _ => s
  | .incViews sender id =>
    match incrementViews sender id s with
    | .ok s' => s'
    | .error _ => s
  | .incDownloads sender id =>
    match incrementDownloads sender id s with
    | .ok s' => s'
    | .error _ => s
  | .addToken sender tok symbol =>
    match addPaymentToken sender tok symbol s with
    | .ok s' => s'
    | .error _ => s

/-- Run a sequence of operations in order. -/
def runOps (ops : List Op) (s : ContractState) : ContractState :=
  ops.foldl (fun t o => stepOp o t) s

/-- A state is reachable iff some operation sequence produces it from a
freshly deployed contract. -/
def Reachable (s : ContractState) : Prop :=
  ∃ deployer ops, s = runOps ops (initialState deployer)

/-- The sum of the `earnings` fields over the datasets owned by `u`. -/
def earningsSum (s : ContractState) (u : Nat) : Nat :=
  (Finset.range s.datasetCount).sum
    (fun i => if (s.datasets i).uploader = u then (s.datasets i).earnings else 0)

/-- Invariant: every id at or above `datasetCount` (never assigned by
`uploadDataset`) still has every field of the default record except
possibly the `views`/`downloads` counters. -/
def UnassignedOK (t : ContractState) : Prop :=
  ∀ i, t.datasetCount ≤ i →
    (t.datasets i).uploader = 0 ∧ (t.datasets i).isPublic = false ∧
    (t.datasets i).isPrivate = false ∧ (t.datasets i).isPaid = false ∧
    (t.datasets i).priceInFIL = 0 ∧ (t.datasets i).earnings = 0 ∧
    (t.datasets i).datasetCID = "" ∧ (t.datasets i).analysisCID = "" ∧
    (t.datasets i).timestamp = 0

/-- Invariant: each publisher's earnings ledger equals the sum of the
earnings of the datasets they uploaded. -/
def EarnInv (t : ContractState) : Prop :=
  ∀ u, t.publisherEarnings u = earningsSum t u

/-- Concrete scenario: the deployer `1` allowlists token `7`, then user
`2` uploads a public, paid dataset (CID `"cidA"`, price 10) as id 0. -/
def opsW : List Op :=
  [Op.addToken 1 7 "TOK", Op.upload 2 100 "cidA" "an" true false true 10]

/-- The state after running `opsW` on a fresh deployment by `1`. -/
def sW : ContractState := runOps opsW (initialState 1)

/-- The state after buyer `3` successfully purchases dataset 0 in `sW`. -/
def s1W : ContractState := stepOp (Op.purchase 3 0 7 TransferOutcome.success) sW

/-- `sW` with the reentrancy lock held, i.e. the registry state as seen
by a nested call made from inside an outer guarded mutator. -/
def sLockW : ContractState := { sW with locked := true }

/-- A state reached by calling `incrementDownloads` on the never-assigned
id 9 from a fresh deployment. -/
def sBadW : ContractState := stepOp (Op.incDownloads 5 9) (initialState 1)

/-- A state whose public dataset 0 has only its `views` counter at the
top of the `uint48` range (downloads still 0). -/
def sMaxViewsW : ContractState :=
  { initialState 1 with
    datasetCount := 1
    datasets := fun j =>
      if j = 0 then
        { defaultDataset with
          uploader := 2, isPublic := true, isPaid := true, priceInFIL := 10,
          views := UINT48_MOD - 1 }
      else defaultDataset }

/-- A state whose public dataset 0 has only its `downloads` counter at
the top of the `uint48` range (views still 0). -/
def sMaxDownW : ContractState :=
  { initialState 1 with
    datasetCount := 1
    datasets := fun j =>
      if j = 0 then
        { defaultDataset with
          uploader := 2, isPublic := true, isPaid := true, priceInFIL := 10,
          downloads := UINT48_MOD - 1 }
      else defaultDataset }


/-! ### Pagination lemmas -/

lemma countQualifying_eq_length (s : ContractState) :
    countQualifying s = (publicDatasetsAsc s).length := by
  simp [countQualifying, publicDatasetsAsc]

/-- Loop invariant of the collection loop of `getPublicDatasetPage`:
started at running index `c` over the remaining ids `ids`, it returns the
window `[start, endd)` of the qualifying datasets among `ids`, shifted
by `c`. -/
lemma pageGo_eq (s : ContractState) (start endd : Nat) (ids : List Nat)
    (c : Nat) :
    pageGo s start endd ids c =
      (((ids.filter (fun i => qualifies (s.datasets i))).map
          (fun i => s.datasets i)).drop (start - c)).take (endd - max start c) := by
  induction ids generalizing c with
  | nil => simp [pageGo]
  | cons i rest ih =>
    by_cases hq : qualifies (s.datasets i)
    · have hfil : List.filter (fun j => qualifies (s.datasets j)) (i :: rest) =
          i :: List.filter (fun j => qualifies (s.datasets j)) rest := by
        simp [List.filter_cons, hq]
      rw [pageGo, if_pos hq, hfil, List.map_cons]
      rcases Nat.lt_or_ge c start with hcs | hcs
      · -- still before the window: nothing collected at index c
        rw [if_neg (by omega)]
        have hdrop : (start - c) = (start - (c + 1)) + 1 := by omega
        rw [hdrop, List.drop_succ_cons]
        by_cases hbr : endd ≤ c + 1
        · -- break: the window is empty because endd ≤ start
          rw [if_pos hbr]
          have : endd - max start c = 0 := by omega
          simp [this]
        · rw [if_neg hbr, ih (c + 1)]
          have h1 : max start c = start := by omega
          have h2 : max start (c + 1) = start := by omega
          simp [h1, h2]
      · -- c is at or past start
        have hmax : max start c = c := by omega
        rw [hmax]
        by_cases hce : c < endd
        · -- collect the element at index c
          rw [if_pos ⟨hcs, hce⟩]
          have hsub : start - c = 0 := by omega
          have htake : endd - c = (endd - (c + 1)) + 1 := by omega
          rw [hsub, List.drop_zero, htake, List.take_succ_cons]
          by_cases hbr : endd ≤ c + 1
          · rw [if_pos hbr]
            have : endd - (c + 1) = 0 := by omega
            simp [this]
          · rw [if_neg hbr, ih (c + 1)]
            have h1 : start - (c + 1) = 0 := by omega
            have h2 : max start (c + 1) = c + 1 := by omega
            simp [h1, h2]
        · -- past the window: nothing collected, loop breaks
          rw [if_neg (by omega), if_pos (by omega)]
          have : endd - c = 0 := by omega
          simp [this]
    · have hfil : List.filter (fun j => qualifies (s.datasets j)) (i :: rest) =
          List.filter (fun j => qualifies (s.datasets j)) rest := by
        simp [List.filter_cons, hq]
      rw [pageGo, if_neg hq, hfil, ih c]

/-- The page returned by `getPublicDatasetPage` is always the
`start`/`limit` window of the ascending qualifying list. -/
lemma getPublicDatasetPage_fst (s : ContractState) (start limit : Nat) :
    (getPublicDatasetPage s start limit).1 =
      ((publicDatasetsAsc s).drop start).take limit := by
  unfold getPublicDatasetPage
  by_cases h : countQualifying s ≤ start
  · rw [if_pos h]
    have : (publicDatasetsAsc s).drop start = [] :=
      List.drop_eq_nil_of_le (by rw [← countQualifying_eq_length]; exact h)
    simp [this]
  · rw [if_neg h]
    have htotal : countQualifying s = (publicDatasetsAsc s).length :=
      countQualifying_eq_length s
    have hfilter : ((List.range s.datasetCount).filter
        (fun i => qualifies (s.datasets i))).map (fun i => s.datasets i) =
        publicDatasetsAsc s := rfl
    simp only [pageGo_eq, hfilter, Nat.sub_zero, Nat.max_zero]
    have hlen : ((publicDatasetsAsc s).drop start).length =
        (publicDatasetsAsc s).length - start := List.length_drop ..
    have harith : min (start + limit) (countQualifying s) - start =
        min limit (((publicDatasetsAsc s).drop start).length) := by
      rw [hlen, ← htotal]; omega
    rw [harith, ← List.take_take, List.take_length]

/-- The cursor returned by `getPublicDatasetPage`: the capped window end
when more data existed at `start`, and `0` once `start` is past the
qualifying total. -/
lemma getPublicDatasetPage_snd (s : ContractState) (start limit : Nat) :
    (getPublicDatasetPage s start limit).2 =
      if start < (publicDatasetsAsc s).length then
        min (start + limit) ((publicDatasetsAsc s).length)
      else 0 := by
  unfold getPublicDatasetPage
  rw [countQualifying_eq_length]
  by_cases h : (publicDatasetsAsc s).length ≤ start
  · rw [if_pos h, if_neg (by omega)]
  · rw [if_neg h, if_pos (by omega)]

/-! ### Success-branch shape lemmas for the mutating operations -/

lemma upload_ok_shape {sender now : Nat} {cid analysis : String}
    {pub priv paid : Bool} {price : Nat} {s s' : ContractState}
    (h : uploadDataset sender now cid analysis pub priv paid price s = .ok s') :
    s.locked = false ∧ s.cidExists cid = false ∧ cid.length ≠ 0 ∧
    (pub && priv) = false ∧ (priv && paid) = false ∧
    (paid && price == 0) = false ∧
    s' = { s with
      cidExists := fun c => if c = cid then true else s.cidExists c
      datasetCount := s.datasetCount + 1
      datasets := fun j =>
        if j = s.datasetCount then
          { datasetCID := cid, analysisCID := analysis, uploader := sender,
            isPublic := pub, isPrivate := priv, timestamp := now % UINT48_MOD,
            views := 0, downloads := 0, isPaid := paid,
            priceInFIL := price % UINT128_MOD, earnings := 0 }
        else s.datasets j
      userUploads := fun u =>
        if u = sender then s.userUploads u ++ [s.datasetCount]
        else s.userUploads u } := by
  unfold uploadDataset at h
  split_ifs at h with h1 h2 h3 h4 h5 h6
  all_goals cases h
  exact ⟨by simpa using h1, by simpa using h2, h3, by simpa using h4,
    by simpa using h5, by simpa using h6, rfl⟩

set_option maxHeartbeats 1600000 in
lemma purchase_ok_shape {sender id tok : Nat} {outcome : TransferOutcome}
    {s s' : ContractState}
    (h : purchaseDataset sender id tok outcome s = .ok s') :
    s.locked = false ∧
    (s.datasets id).isPublic = true ∧ (s.datasets id).isPrivate = false ∧
    (s.datasets id).isPaid = true ∧ s.hasAccess id sender = false ∧
    (s.datasets id).uploader ≠ sender ∧
    (s.paymentTokens tok).isAccepted = true ∧
    outcome ≠ TransferOutcome.reverted ∧
    s' = { s with
      hasAccess := fun j u =>
        if j = id ∧ u = sender then true else s.hasAccess j u
      datasets := fun j =>
        if j = id then
          { s.datasets id with
            earnings := (s.datasets id).earnings + (s.datasets id).priceInFIL }
        else s.datasets j
      publisherEarnings := fun u =>
        if u = (s.datasets id).uploader then
          s.publisherEarnings u + (s.datasets id).priceInFIL
        else s.publisherEarnings u
      totalPlatformEarnings :=
        s.totalPlatformEarnings + (s.datasets id).priceInFIL } := by
  unfold purchaseDataset at h
  by_cases h1 : s.locked = true
  · rw [if_pos h1] at h; cases h
  rw [if_neg h1] at h
  by_cases h2 : (!((s.datasets id).isPublic && !(s.datasets id).isPrivate)) = true
  · rw [if_pos h2] at h; cases h
  rw [if_neg h2] at h
  by_cases h3 : (!(s.datasets id).isPaid) = true
  · rw [if_pos h3] at h; cases h
  rw [if_neg h3] at h
  by_cases h4 : s.hasAccess id sender = true
  · rw [if_pos h4] at h; cases h
  rw [if_neg h4] at h
  by_cases h5 : ((s.datasets id).uploader == sender) = true
  · rw [if_pos h5] at h; cases h
  rw [if_neg h5] at h
  by_cases h6 : (!(s.paymentTokens tok).isAccepted) = true
  · rw [if_pos h6] at h; cases h
  rw [if_neg h6] at h
  by_cases h7 : outcome = TransferOutcome.reverted
  · rw [if_pos h7] at h; cases h
  rw [if_neg h7] at h
  by_cases h8 : (s.datasets id).earnings + (s.datasets id).priceInFIL < UINT128_MOD
  case neg => rw [if_neg h8] at h; cases h
  rw [if_pos h8] at h
  by_cases h9 : s.publisherEarnings (s.datasets id).uploader +
      (s.datasets id).priceInFIL < UINT128_MOD
  case neg => rw [if_neg h9] at h; cases h
  rw [if_pos h9] at h
  by_cases h10 : s.totalPlatformEarnings + (s.datasets id).priceInFIL < UINT128_MOD
  case neg => rw [if_neg h10] at h; cases h
  rw [if_pos h10] at h
  cases h
  have h2' : ((s.datasets id).isPublic && !(s.datasets id).isPrivate) = true := by
    simpa using h2
  rw [Bool.and_eq_true, Bool.not_eq_true'] at h2'
  exact ⟨by simpa using h1, h2'.1, h2'.2, by simpa using h3, by simpa using h4,
    by simpa using h5, by simpa using h6, h7, rfl⟩

lemma incViews_ok_shape {sender id : Nat} {s s' : ContractState}
    (h : incrementViews sender id s = .ok s') :
    canView sender id s = true ∧
    (s.datasets id).views + 1 < UINT48_MOD ∧
    s' = { s with datasets := fun j =>
      if j = id then { s.datasets id with views := (s.datasets id).views + 1 }
      else s.datasets j } := by
  unfold incrementViews at h
  split_ifs at h with h1 h2
  all_goals cases h
  exact ⟨h1, h2, rfl⟩

lemma incDownloads_ok_shape {sender id : Nat} {s s' : ContractState}
    (h : incrementDownloads sender id s = .ok s') :
    canDownload sender id s = true ∧
    (s.datasets id).downloads + 1 < UINT48_MOD ∧
    s' = { s with datasets := fun j =>
      if j = id then { s.datasets id with downloads := (s.datasets id).downloads + 1 }
      else s.datasets j } := by
  unfold incrementDownloads at h
  split_ifs at h with h1 h2
  all_goals cases h
  exact ⟨h1, h2, rfl⟩

lemma addToken_ok_shape {sender tok : Nat} {symbol : String} {s s' : ContractState}
    (h : addPaymentToken sender tok symbol s = .ok s') :
    s.owner = sender ∧ tok ≠ 0 ∧ (s.paymentTokens tok).isAccepted = false ∧
    s' = { s with
      paymentTokens := fun t =>
        if t = tok then { tokenAddress := tok, isAccepted := true, symbol := symbol }
        else s.paymentTokens t
      acceptedTokenByIndex := fun i =>
        if i = s.acceptedTokenCount then tok else s.acceptedTokenByIndex i
      acceptedTokenCount := s.acceptedTokenCount + 1 } := by
  unfold addPaymentToken at h
  split_ifs at h with h1 h2 h3
  all_goals cases h
  exact ⟨by simpa using h1, by simpa using h2, by simpa using h3, rfl⟩

/-! ### Step lemmas and reachability invariants -/

/-- One ledger step never flips the reentrancy lock left behind, never
shrinks the dataset count, never revokes an access grant, and never
changes the identity fields (CID, uploader, visibility flags, price) of
an already-assigned dataset record. -/
lemma stepOp_frame (o : Op) (t : ContractState) :
    (stepOp o t).locked = t.locked ∧
    t.datasetCount ≤ (stepOp o t).datasetCount ∧
    (∀ j u, t.hasAccess j u = true → (stepOp o t).hasAccess j u = true) ∧
    (∀ j, j < t.datasetCount →
      ((stepOp o t).datasets j).datasetCID = (t.datasets j).datasetCID ∧
      ((stepOp o t).datasets j).uploader = (t.datasets j).uploader ∧
      ((stepOp o t).datasets j).isPublic = (t.datasets j).isPublic ∧
      ((stepOp o t).datasets j).isPrivate = (t.datasets j).isPrivate ∧
      ((stepOp o t).datasets j).isPaid = (t.datasets j).isPaid ∧
      ((stepOp o t).datasets j).priceInFIL = (t.datasets j).priceInFIL) := by
  cases o with
  | upload sender now cid analysis pub priv paid price =>
    simp only [stepOp]
    cases hc : uploadDataset sender now cid analysis pub priv paid price t with
    | error e => simp
    | ok s' =>
      obtain ⟨-, -, -, -, -, -, rfl⟩ := upload_ok_shape hc
      refine ⟨rfl, by simp, by simp, ?_⟩
      intro j hj
      have hne : j ≠ t.datasetCount := Nat.ne_of_lt hj
      simp [hne]
  | purchase sender id tok outcome =>
    simp only [stepOp]
    cases hc : purchaseDataset sender id tok outcome t with
    | error e => simp
    | ok s' =>
      obtain ⟨-, -, -, -, -, -, -, -, rfl⟩ := purchase_ok_shape hc
      refine ⟨rfl, le_refl _, ?_, ?_⟩
      · intro j u hju
        by_cases hcase : j = id ∧ u = sender <;> simp [hcase, hju]
      · intro j hj
        by_cases hcase : j = id <;> simp [hcase]
  | incViews sender id =>
    simp only [stepOp]
    cases hc : incrementViews sender id t with
    | error e => simp
    | ok s' =>
      obtain ⟨-, -, rfl⟩ := incViews_ok_shape hc
      refine ⟨rfl, le_refl _, by simp, ?_⟩
      intro j hj
      by_cases hcase : j = id <;> simp [hcase]
  | incDownloads sender id =>
    simp only [stepOp]
    cases hc : incrementDownloads sender id t with
    | error e => simp
    | ok s' =>
      obtain ⟨-, -, rfl⟩ := incDownloads_ok_shape hc
      refine ⟨rfl, le_refl _, by simp, ?_⟩
      intro j hj
      by_cases hcase : j = id <;> simp [hcase]
  | addToken sender tok symbol =>
    simp only [stepOp]
    cases hc : addPaymentToken sender tok symbol t with
    | error e => simp
    | ok s' =>
      obtain ⟨-, -, -, rfl⟩ := addToken_ok_shape hc
      exact ⟨rfl, le_refl _, by simp, by simp⟩

/-- One ledger step preserves the unassigned-records invariant. -/
lemma stepOp_unassigned (o : Op) (t : ContractState) (h : UnassignedOK t) :
    UnassignedOK (stepOp o t) := by
  cases o with
  | upload sender now cid analysis pub priv paid price =>
    simp only [stepOp]
    cases hc : uploadDataset sender now cid analysis pub priv paid price t with
    | error e => exact h
    | ok s' =>
      obtain ⟨-, -, -, -, -, -, rfl⟩ := upload_ok_shape hc
      intro i hi
      have hne : i ≠ t.datasetCount := by
        simp only at hi; omega
      simpa [hne] using h i (by simp only at hi; omega)
  | purchase sender id tok outcome =>
    simp only [stepOp]
    cases hc : purchaseDataset sender id tok outcome t with
    | error e => exact h
    | ok s' =>
      obtain ⟨-, hpub, -, -, -, -, -, -, rfl⟩ := purchase_ok_shape hc
      have hid : id < t.datasetCount := by
        by_contra hge
        have := (h id (by omega)).2.1
        rw [this] at hpub
        cases hpub
      intro i hi
      have hne : i ≠ id := by
        intro hEq; subst hEq; simp only at hi; omega
      simpa [hne] using h i (by simp only at hi; omega)
  | incViews sender id =>
    simp only [stepOp]
    cases hc : incrementViews sender id t with
    | error e => exact h
    | ok s' =>
      obtain ⟨-, -, rfl⟩ := incViews_ok_shape hc
      intro i hi
      have hbase := h i (by simp only at hi; omega)
      by_cases hcase : i = id
      · subst hcase; simpa using hbase
      · simpa [hcase] using hbase
  | incDownloads sender id =>
    simp only [stepOp]
    cases hc : incrementDownloads sender id t with
    | error e => exact h
    | ok s' =>
      obtain ⟨-, -, rfl⟩ := incDownloads_ok_shape hc
      intro i hi
      have hbase := h i (by simp only at hi; omega)
      by_cases hcase : i = id
      · subst hcase; simpa using hbase
      · simpa [hcase] using hbase
  | addToken sender tok symbol =>
    simp only [stepOp]
    cases hc : addPaymentToken sender tok symbol t with
    | error e => exact h
    | ok s' =>
      obtain ⟨-, -, -, rfl⟩ := addToken_ok_shape hc
      intro i hi
      exact h i (by simp only at hi; omega)


/-- Appending a fresh record with zero earnings does not change the
per-uploader earnings sum. -/
lemma sum_earnings_append (n : Nat) (f : Nat → Dataset) (newd : Dataset)
    (u : Nat) (hnew : newd.earnings = 0) :
    (Finset.range (n + 1)).sum (fun i =>
      if ((if i = n then newd else f i) : Dataset).uploader = u then
        ((if i = n then newd else f i) : Dataset).earnings else 0) =
    (Finset.range n).sum (fun i =>
      if (f i).uploader = u then (f i).earnings else 0) := by
  rw [Finset.sum_range_succ]
  have hlast : (if ((if n = n then newd else f n) : Dataset).uploader = u then
      ((if n = n then newd else f n) : Dataset).earnings else 0) = 0 := by
    simp [hnew]
  rw [hlast, Nat.add_zero]
  refine Finset.sum_congr rfl ?_
  intro i hi
  have hne : i ≠ n := Nat.ne_of_lt (Finset.mem_range.mp hi)
  simp [hne]

/-- Adding `P` to the earnings of the record at an assigned index `idx`
adds `P` to the earnings sum of its uploader and nothing to anyone
else's. -/
lemma sum_earnings_bump (n idx : Nat) (f : Nat → Dataset) (P u : Nat)
    (hidx : idx < n) :
    (Finset.range n).sum (fun i =>
      if ((if i = idx then { f idx with earnings := (f idx).earnings + P }
            else f i) : Dataset).uploader = u then
        ((if i = idx then { f idx with earnings := (f idx).earnings + P }
            else f i) : Dataset).earnings else 0) =
    (Finset.range n).sum (fun i =>
      if (f i).uploader = u then (f i).earnings else 0) +
      (if (f idx).uploader = u then P else 0) := by
  have hmem : idx ∈ Finset.range n := Finset.mem_range.mpr hidx
  have hfun : ∀ i,
      (if ((if i = idx then { f idx with earnings := (f idx).earnings + P }
            else f i) : Dataset).uploader = u then
        ((if i = idx then { f idx with earnings := (f idx).earnings + P }
            else f i) : Dataset).earnings else 0) =
      (if (f i).uploader = u then (f i).earnings else 0) +
        (if i = idx then (if (f idx).uploader = u then P else 0) else 0) := by
    intro i
    by_cases hi : i = idx
    · subst hi
      by_cases hu : (f i).uploader = u <;> simp [hu]
    · simp [hi]
  rw [Finset.sum_congr rfl (fun i _ => hfun i), Finset.sum_add_distrib,
    Finset.sum_ite_eq' (Finset.range n) idx
      (fun _ => if (f idx).uploader = u then P else 0),
    if_pos hmem]

/-- One ledger step preserves the publisher-earnings bookkeeping
invariant (given the unassigned-records invariant, which pins every
successful purchase to an assigned id). -/
lemma stepOp_earninv (o : Op) (t : ContractState) (hU : UnassignedOK t)
    (hE : EarnInv t) : EarnInv (stepOp o t) := by
  cases o with
  | upload sender now cid analysis pub priv paid price =>
    simp only [stepOp]
    cases hc : uploadDataset sender now cid analysis pub priv paid price t with
    | error e => exact hE
    | ok s' =>
      obtain ⟨-, -, -, -, -, -, rfl⟩ := upload_ok_shape hc
      intro u
      show t.publisherEarnings u = _
      rw [hE u]
      unfold earningsSum
      exact (sum_earnings_append t.datasetCount t.datasets _ u rfl).symm
  | purchase sender id tok outcome =>
    simp only [stepOp]
    cases hc : purchaseDataset sender id tok outcome t with
    | error e => exact hE
    | ok s' =>
      obtain ⟨-, hpub, -, -, -, -, -, -, rfl⟩ := purchase_ok_shape hc
      have hid : id < t.datasetCount := by
        by_contra hge
        have := (hU id (by omega)).2.1
        rw [this] at hpub
        cases hpub
      intro u
      show (if u = (t.datasets id).uploader then
          t.publisherEarnings u + (t.datasets id).priceInFIL
        else t.publisherEarnings u) = _
      unfold earningsSum
      rw [sum_earnings_bump t.datasetCount id t.datasets
        (t.datasets id).priceInFIL u hid]
      have hEu := hE u
      unfold earningsSum at hEu
      by_cases hu : u = (t.datasets id).uploader
      · rw [if_pos hu, if_pos hu.symm, hEu]
      · rw [if_neg hu, if_neg (fun hEq => hu hEq.symm), hEu, Nat.add_zero]
  | incViews sender id =>
    simp only [stepOp]
    cases hc : incrementViews sender id t with
    | error e => exact hE
    | ok s' =>
      obtain ⟨-, -, rfl⟩ := incViews_ok_shape hc
      intro u
      show t.publisherEarnings u = _
      rw [hE u]
      unfold earningsSum
      refine Finset.sum_congr rfl ?_
      intro i hi
      by_cases hcase : i = id
      · subst hcase; simp
      · simp [hcase]
  | incDownloads sender id =>
    simp only [stepOp]
    cases hc : incrementDownloads sender id t with
    | error e => exact hE
    | ok s' =>
      obtain ⟨-, -, rfl⟩ := incDownloads_ok_shape hc
      intro u
      show t.publisherEarnings u = _
      rw [hE u]
      unfold earningsSum
      refine Finset.sum_congr rfl ?_
      intro i hi
      by_cases hcase : i = id
      · subst hcase; simp
      · simp [hcase]
  | addToken sender tok symbol =>
    simp only [stepOp]
    cases hc : addPaymentToken sender tok symbol t with
    | error e => exact hE
    | ok s' =>
      obtain ⟨-, -, -, rfl⟩ := addToken_ok_shape hc
      exact hE

/-- Any property preserved by every single step holds after any
operation sequence. -/
lemma runOps_inv (P : ContractState → Prop)
    (hstep : ∀ o t, P t → P (stepOp o t)) :
    ∀ ops s, P s → P (runOps ops s) := by
  intro ops
  induction ops with
  | nil => intro s hs; exact hs
  | cons o rest ih => intro s hs; exact ih (stepOp o s) (hstep o s hs)

/-- Every reachable ledger state has the lock released, keeps all
unassigned records at their defaults (up to the two counters), and
satisfies the publisher-earnings bookkeeping invariant. -/
lemma reachable_inv (s : ContractState) (hs : Reachable s) :
    s.locked = false ∧ UnassignedOK s ∧ EarnInv s := by
  obtain ⟨d, ops, rfl⟩ := hs
  refine runOps_inv
    (fun t => t.locked = false ∧ UnassignedOK t ∧ EarnInv t)
    ?_ ops (initialState d) ?_
  · intro o t ht
    refine ⟨?_, stepOp_unassigned o t ht.2.1, stepOp_earninv o t ht.2.1 ht.2.2⟩
    rw [(stepOp_frame o t).1]
    exact ht.1
  · refine ⟨rfl, ?_, ?_⟩
    · intro i hi
      exact ⟨rfl, rfl, rfl, rfl, rfl, rfl, rfl, rfl, rfl⟩
    · intro u
      simp [earningsSum, initialState]

/-! ### Claim theorems -/

/-- C4: an `uploadDataset` call violating any precondition (CID used or
empty, public∧private, private∧paid, paid with zero price) fails with the
corresponding revert reason and performs no state mutation at all. -/
theorem upload_precondition_failures (s : ContractState)
    (sender now : Nat) (cid analysis : String) (pub priv paid : Bool)
    (price : Nat) (hlock : s.locked = false)
    (hviol : s.cidExists cid = true ∨ cid.length = 0 ∨
      (pub = true ∧ priv = true) ∨ (priv = true ∧ paid = true) ∨
      (paid = true ∧ price = 0)) :
    (s.cidExists cid = true →
      uploadDataset sender now cid analysis pub priv paid price s =
        .error SolError.cidExistsErr) ∧
    (s.cidExists cid = false → cid.length = 0 →
      uploadDataset sender now cid analysis pub priv paid price s =
        .error SolError.cidEmpty) ∧
    (s.cidExists cid = false → cid.length ≠ 0 → pub = true → priv = true →
      uploadDataset sender now cid analysis pub priv paid price s =
        .error SolError.publicPrivate) ∧
    (s.cidExists cid = false → cid.length ≠ 0 → (pub && priv) = false →
      priv = true → paid = true →
      uploadDataset sender now cid analysis pub priv paid price s =
        .error SolError.privateNotPaid) ∧
    (s.cidExists cid = false → cid.length ≠ 0 → (pub && priv) = false →
      (priv && paid) = false → paid = true → price = 0 →
      uploadDataset sender now cid analysis pub priv paid price s =
        .error SolError.priceZero) ∧
    stepOp (Op.upload sender now cid analysis pub priv paid price) s = s := by
  refine ⟨?_, ?_, ?_, ?_, ?_, ?_⟩
  · intro h1
    unfold uploadDataset
    rw [if_neg (by simp [hlock]), if_pos h1]
  · intro h1 h2
    unfold uploadDataset
    rw [if_neg (by simp [hlock]), if_neg (by simp [h1]), if_pos h2]
  · intro h1 h2 h3 h4
    unfold uploadDataset
    rw [if_neg (by simp [hlock]), if_neg (by simp [h1]), if_neg h2,
      if_pos (by simp [h3, h4])]
  · intro h1 h2 h3 h4 h5
    unfold uploadDataset
    rw [if_neg (by simp [hlock]), if_neg (by simp [h1]), if_neg h2,
      if_neg (by simp [h3]), if_pos (by simp [h4, h5])]
  · intro h1 h2 h3 h4 h5 h6
    unfold uploadDataset
    rw [if_neg (by simp [hlock]), if_neg (by simp [h1]), if_neg h2,
      if_neg (by simp [h3]), if_neg (by simp [h4]),
      if_pos (by simp [h5, h6])]
  · have herr : ∀ s', uploadDataset sender now cid analysis pub priv paid price s ≠
        .ok s' := by
      intro s' hok
      obtain ⟨-, hcid, hlen, hpp, hpd, hpz, -⟩ := upload_ok_shape hok
      rcases hviol with h | h | h | h | h
      · rw [h] at hcid; cases hcid
      · exact hlen h
      · rw [h.1, h.2] at hpp; cases hpp
      · rw [h.1, h.2] at hpd; cases hpd
      · rw [h.1] at hpz
        have : ((true : Bool) && price == 0) = true := by simp [h.2]
        rw [this] at hpz; cases hpz
    simp only [stepOp]
    cases hc : uploadDataset sender now cid analysis pub priv paid price s with
    | ok s' => exact absurd hc (herr s')
    | error e => rfl

/-- C4 witness: uploading with the already-used CID `"cidA"` in the
concrete state `sW` fails with the duplicate-CID error and leaves the
state untouched. -/
theorem upload_precondition_failures_w :
    uploadDataset 2 100 "cidA" "an" false false false 0 sW =
      .error SolError.cidExistsErr ∧
    stepOp (Op.upload 2 100 "cidA" "an" false false false 0) sW = sW :=
  ⟨(upload_precondition_failures sW 2 100 "cidA" "an" false false false 0 rfl
      (Or.inl (by decide))).1 (by decide),
   (upload_precondition_failures sW 2 100 "cidA" "an" false false false 0 rfl
      (Or.inl (by decide))).2.2.2.2.2⟩

/-- C9: two independent halves, one per counter.  For every dataset
whose `views` counter is at the `uint48` maximum, `incrementViews`
fails — with the checked-arithmetic overflow revert when its view guard
passes — and never wraps: the state is unchanged.  Respectively, for
every dataset whose `downloads` counter is at the `uint48` maximum,
`incrementDownloads` fails and never wraps.  Each half assumes only its
own counter at the maximum. -/
theorem increment_overflow_rejected (s : ContractState) (sender id : Nat) :
    ((s.datasets id).views = UINT48_MOD - 1 →
      exceptIsOk (incrementViews sender id s) = false ∧
      stepOp (Op.incViews sender id) s = s ∧
      (canView sender id s = true →
        incrementViews sender id s = .error SolError.overflow)) ∧
    ((s.datasets id).downloads = UINT48_MOD - 1 →
      exceptIsOk (incrementDownloads sender id s) = false ∧
      stepOp (Op.incDownloads sender id) s = s ∧
      (canDownload sender id s = true →
        incrementDownloads sender id s = .error SolError.overflow)) := by
  have hpos : 0 < UINT48_MOD := by norm_num [UINT48_MOD]
  constructor
  · intro hv
    have hnv : ¬((s.datasets id).views + 1 < UINT48_MOD) := by omega
    have hvres : incrementViews sender id s = .error SolError.overflow ∨
        incrementViews sender id s = .error SolError.noView := by
      unfold incrementViews
      by_cases hcv : canView sender id s = true
      · rw [if_pos hcv, if_neg hnv]; exact Or.inl rfl
      · rw [if_neg hcv]; exact Or.inr rfl
    refine ⟨?_, ?_, ?_⟩
    · rcases hvres with h | h <;> rw [h] <;> rfl
    · rcases hvres with h | h <;> simp [stepOp, h]
    · intro hcv
      unfold incrementViews
      rw [if_pos hcv, if_neg hnv]
  · intro hd
    have hnd : ¬((s.datasets id).downloads + 1 < UINT48_MOD) := by omega
    have hdres : incrementDownloads sender id s = .error SolError.overflow ∨
        incrementDownloads sender id s = .error SolError.noDownload := by
      unfold incrementDownloads
      by_cases hcd : canDownload sender id s = true
      · rw [if_pos hcd, if_neg hnd]; exact Or.inl rfl
      · rw [if_neg hcd]; exact Or.inr rfl
    refine ⟨?_, ?_, ?_⟩
    · rcases hdres with h | h <;> rw [h] <;> rfl
    · rcases hdres with h | h <;> simp [stepOp, h]
    · intro hcd
      unfold incrementDownloads
      rw [if_pos hcd, if_neg hnd]

/-- C9 witness: in `sMaxViewsW` only the views counter is at `2^48 - 1`
(downloads 0) and `incrementViews` is rejected with the overflow revert
and no state change; in `sMaxDownW` only the downloads counter is at
`2^48 - 1` (views 0) and `incrementDownloads` is likewise rejected. -/
theorem increment_overflow_rejected_w :
    incrementViews 3 0 sMaxViewsW = .error SolError.overflow ∧
    stepOp (Op.incViews 3 0) sMaxViewsW = sMaxViewsW ∧
    incrementDownloads 2 0 sMaxDownW = .error SolError.overflow ∧
    stepOp (Op.incDownloads 2 0) sMaxDownW = sMaxDownW :=
  ⟨((increment_overflow_rejected sMaxViewsW 3 0).1 (by decide)).2.2 (by decide),
   ((increment_overflow_rejected sMaxViewsW 3 0).1 (by decide)).2.1,
   ((increment_overflow_rejected sMaxDownW 2 0).2 (by decide)).2.2 (by decide),
   ((increment_overflow_rejected sMaxDownW 2 0).2 (by decide)).2.1⟩

/-- C1: the settlement writes of `purchaseDataset` do NOT wait for a
successful transfer result — the returned boolean of the external
`transferFrom` is ignored.  In `sW`, a purchase whose token call reports
failure by returning `false` produces exactly the same committed state
as a successful one: the access grant is set and both earnings ledgers
are credited.  Only an outright revert of the token call aborts the
purchase. -/
theorem purchase_unchecked_transfer_bug :
    purchaseDataset 3 0 7 TransferOutcome.returnedFalse sW =
      purchaseDataset 3 0 7 TransferOutcome.success sW ∧
    exceptIsOk (purchaseDataset 3 0 7 TransferOutcome.returnedFalse sW) = true ∧
    (stepOp (Op.purchase 3 0 7 TransferOutcome.returnedFalse) sW).hasAccess 0 3
      = true ∧
    ((stepOp (Op.purchase 3 0 7 TransferOutcome.returnedFalse) sW).datasets 0).earnings
      = 10 ∧
    (stepOp (Op.purchase 3 0 7 TransferOutcome.returnedFalse) sW).publisherEarnings 2
      = 10 ∧
    sW.hasAccess 0 3 = false ∧
    (sW.datasets 0).earnings = 0 ∧
    sW.publisherEarnings 2 = 0 ∧
    purchaseDataset 3 0 7 TransferOutcome.reverted sW =
      .error SolError.transferFailed :=
  ⟨rfl, rfl, by decide, by decide, by decide, by decide, by decide, by decide, rfl⟩

/-- C2 counterexample: with the reentrancy lock held (`sLockW.locked =
true`, i.e. from inside an outer guarded mutator such as `purchaseDataset`
during its external transfer), a nested `incrementViews` call is NOT
rejected: it succeeds and mutates the views counter, and a nested
`incrementDownloads` by the uploader succeeds as well — the
mutual-exclusion guard does not span these two mutators. -/
theorem mutex_guard_cex :
    sLockW.locked = true ∧
    exceptIsOk (incrementViews 3 0 sLockW) = true ∧
    ((stepOp (Op.incViews 3 0) sLockW).datasets 0).views = 1 ∧
    (sLockW.datasets 0).views = 0 ∧
    exceptIsOk (incrementDownloads 2 0 sLockW) = true ∧
    ((stepOp (Op.incDownloads 2 0) sLockW).datasets 0).downloads = 1 :=
  ⟨rfl, rfl, by decide, by decide, rfl, by decide⟩

/-- C2 amended: only `uploadDataset` and `purchaseDataset` carry the
mutual-exclusion (`nonReentrant`) guard and reject a nested re-entrant
call; `incrementViews` and `incrementDownloads` never consult the lock —
whenever their own guard and bound checks pass they commit their
mutation even while another mutating call is in flight. -/
theorem mutex_guard_upload_purchase_only (s : ContractState) (hlock : s.locked = true)
    (sender now : Nat) (cid analysis : String) (pub priv paid : Bool)
    (price : Nat) (buyer id tok : Nat) (o : TransferOutcome)
    (viewer vid dler did : Nat) :
    uploadDataset sender now cid analysis pub priv paid price s =
      .error SolError.reentrant ∧
    purchaseDataset buyer id tok o s = .error SolError.reentrant ∧
    (canView viewer vid s = true → (s.datasets vid).views + 1 < UINT48_MOD →
      incrementViews viewer vid s = .ok { s with datasets := fun j =>
        (if j = vid then
          { s.datasets vid with views := (s.datasets vid).views + 1 }
         else s.datasets j) }) ∧
    (canDownload dler did s = true →
      (s.datasets did).downloads + 1 < UINT48_MOD →
      incrementDownloads dler did s = .ok { s with datasets := fun j =>
        (if j = did then
          { s.datasets did with downloads := (s.datasets did).downloads + 1 }
         else s.datasets j) }) := by
  refine ⟨?_, ?_, ?_, ?_⟩
  · unfold uploadDataset
    rw [if_pos hlock]
  · unfold purchaseDataset
    rw [if_pos hlock]
  · intro hcv hlt
    unfold incrementViews
    rw [if_pos hcv, if_pos hlt]
  · intro hcd hlt
    unfold incrementDownloads
    rw [if_pos hcd, if_pos hlt]

/-- C2 amended witness: in the locked state `sLockW`, upload and purchase
are rejected with the reentrancy revert while a nested `incrementViews`
still succeeds. -/
theorem mutex_guard_upload_purchase_only_w :
    uploadDataset 4 101 "cidB" "" true false false 0 sLockW =
      .error SolError.reentrant ∧
    purchaseDataset 3 0 7 TransferOutcome.success sLockW =
      .error SolError.reentrant ∧
    exceptIsOk (incrementViews 3 0 sLockW) = true :=
  ⟨(mutex_guard_upload_purchase_only sLockW rfl 4 101 "cidB" "" true false false 0
      3 0 7 TransferOutcome.success 3 0 2 0).1,
   (mutex_guard_upload_purchase_only sLockW rfl 4 101 "cidB" "" true false false 0
      3 0 7 TransferOutcome.success 3 0 2 0).2.1,
   by
    have h := (mutex_guard_upload_purchase_only sLockW rfl 4 101 "cidB" "" true false false 0
      3 0 7 TransferOutcome.success 3 0 2 0).2.2.1 (by decide) (by decide)
    rw [h]
    rfl⟩

/-- C3 counterexample: the "no more data" return of
`getPublicDatasetPage` is `nextStart = 0`, which is NOT distinguishable
from the valid cursor value 0: in `sW` (one qualifying dataset) the
exhausted call `(start = 5)` and the in-range `limit = 0` call
`(start = 0)`, which still has data ahead of its cursor, both return
exactly `([], 0)`. -/
theorem page_sentinel_cex :
    0 < (publicDatasetsAsc sW).length ∧
    getPublicDatasetPage sW 5 3 = ([], 0) ∧
    getPublicDatasetPage sW 0 0 = ([], 0) ∧
    (getPublicDatasetPage sW 0 1).1 = [sW.datasets 0] :=
  ⟨by decide, by decide, by decide, by decide⟩

/-- C3 amended: `getPublicDatasetPage` with `limit = 0` and `start`
strictly below the qualifying total returns `([], start)`; with `start`
at or past the qualifying total it returns `([], 0)` for every limit —
the exhausted marker is the plain cursor value 0, not a distinguished
sentinel. -/
theorem page_limit_zero_and_exhausted (s : ContractState) (start limit : Nat) :
    (start < (publicDatasetsAsc s).length →
      getPublicDatasetPage s start 0 = ([], start)) ∧
    ((publicDatasetsAsc s).length ≤ start →
      getPublicDatasetPage s start limit = ([], 0)) := by
  constructor
  · intro h
    have h1 : (getPublicDatasetPage s start 0).1 = [] := by
      rw [getPublicDatasetPage_fst]
      simp
    have h2 : (getPublicDatasetPage s start 0).2 = start := by
      rw [getPublicDatasetPage_snd, if_pos h, Nat.add_zero,
        Nat.min_eq_left (Nat.le_of_lt h)]
    rw [Prod.ext_iff]
    exact ⟨h1, h2⟩
  · intro h
    have h1 : (getPublicDatasetPage s start limit).1 = [] := by
      rw [getPublicDatasetPage_fst, List.drop_eq_nil_of_le h]
      simp
    have h2 : (getPublicDatasetPage s start limit).2 = 0 := by
      rw [getPublicDatasetPage_snd, if_neg (by omega)]
    rw [Prod.ext_iff]
    exact ⟨h1, h2⟩

/-- C3 amended witness: in `sW` (qualifying total 1), the in-range
`limit = 0` call returns `([], start)` and the exhausted call returns
`([], 0)`. -/
theorem page_limit_zero_and_exhausted_w :
    getPublicDatasetPage sW 0 0 = ([], 0) ∧
    getPublicDatasetPage sW 9 4 = ([], 0) :=
  ⟨(page_limit_zero_and_exhausted sW 0 4).1 (by decide),
   (page_limit_zero_and_exhausted sW 9 4).2 (by decide)⟩

/-- C5: a successful `purchaseDataset` at price `P = priceInFIL` adds
exactly `P` to the purchased dataset's earnings and to its uploader's
publisher earnings, sets the buyer's access grant, and changes nothing
else: every other dataset record, every other grant entry, every other
publisher's earnings, and every remaining field of the purchased record
are untouched. -/
theorem purchase_frame (s : ContractState) (buyer id tok : Nat)
    (o : TransferOutcome) (s' : ContractState)
    (h : purchaseDataset buyer id tok o s = .ok s') :
    (s'.datasets id).earnings =
      (s.datasets id).earnings + (s.datasets id).priceInFIL ∧
    s'.publisherEarnings (s.datasets id).uploader =
      s.publisherEarnings (s.datasets id).uploader + (s.datasets id).priceInFIL ∧
    s'.hasAccess id buyer = true ∧
    (∀ j, j ≠ id → s'.datasets j = s.datasets j) ∧
    (∀ j u, ¬(j = id ∧ u = buyer) → s'.hasAccess j u = s.hasAccess j u) ∧
    (∀ u, u ≠ (s.datasets id).uploader →
      s'.publisherEarnings u = s.publisherEarnings u) ∧
    (s'.datasets id).datasetCID = (s.datasets id).datasetCID ∧
    (s'.datasets id).analysisCID = (s.datasets id).analysisCID ∧
    (s'.datasets id).uploader = (s.datasets id).uploader ∧
    (s'.datasets id).isPublic = (s.datasets id).isPublic ∧
    (s'.datasets id).isPrivate = (s.datasets id).isPrivate ∧
    (s'.datasets id).timestamp = (s.datasets id).timestamp ∧
    (s'.datasets id).views = (s.datasets id).views ∧
    (s'.datasets id).downloads = (s.datasets id).downloads ∧
    (s'.datasets id).isPaid = (s.datasets id).isPaid ∧
    (s'.datasets id).priceInFIL = (s.datasets id).priceInFIL ∧
    s'.datasetCount = s.datasetCount ∧
    s'.cidExists = s.cidExists ∧
    s'.userUploads = s.userUploads := by
  obtain ⟨-, -, -, -, -, -, -, -, rfl⟩ := purchase_ok_shape h
  refine ⟨by simp, by simp, by simp, ?_, ?_, ?_, by simp, by simp, by simp,
    by simp, by simp, by simp, by simp, by simp, by simp, by simp, rfl, rfl, rfl⟩
  · intro j hj
    simp [hj]
  · intro j u hju
    simp only
    rw [if_neg hju]
  · intro u hu
    simp only
    rw [if_neg hu]

/-- C5 witness: the concrete successful purchase of dataset 0 by buyer 3
in `sW` credits earnings by the price 10, grants access, and leaves the
untouched parts identical. -/
theorem purchase_frame_w :
    (s1W.datasets 0).earnings =
      (sW.datasets 0).earnings + (sW.datasets 0).priceInFIL ∧
    s1W.publisherEarnings (sW.datasets 0).uploader =
      sW.publisherEarnings (sW.datasets 0).uploader + (sW.datasets 0).priceInFIL ∧
    s1W.hasAccess 0 3 = true ∧
    s1W.datasets 5 = sW.datasets 5 ∧
    s1W.datasetCount = sW.datasetCount :=
  ⟨(purchase_frame sW 3 0 7 TransferOutcome.success s1W rfl).1,
   (purchase_frame sW 3 0 7 TransferOutcome.success s1W rfl).2.1,
   (purchase_frame sW 3 0 7 TransferOutcome.success s1W rfl).2.2.1,
   (purchase_frame sW 3 0 7 TransferOutcome.success s1W rfl).2.2.2.1 5 (by decide),
   (purchase_frame sW 3 0 7 TransferOutcome.success s1W rfl).2.2.2.2.2.2.2.2.2.2.2.2.2.2.2.2.1⟩

/-- C6: from any reachable state, a successful purchase of `(id, buyer)`
makes every later purchase of the same dataset by the same buyer —
after any interleaving of further operations, with any token and any
transfer outcome — fail with the `AlreadyPurchased` revert and leave the
ledger untouched; and access grants are monotone under every operation:
once true, never revoked. -/
theorem purchase_at_most_once (s : ContractState) (hs : Reachable s)
    (buyer id tok : Nat) (o : TransferOutcome) (s₁ : ContractState)
    (h : purchaseDataset buyer id tok o s = .ok s₁)
    (ops : List Op) (tok' : Nat) (o' : TransferOutcome) :
    purchaseDataset buyer id tok' o' (runOps ops s₁) = .error SolError.already ∧
    stepOp (Op.purchase buyer id tok' o') (runOps ops s₁) = runOps ops s₁ ∧
    (runOps ops s₁).hasAccess id buyer = true ∧
    (∀ t o₂ j u, t.hasAccess j u = true → (stepOp o₂ t).hasAccess j u = true) := by
  obtain ⟨hlock0, hU0, -⟩ := reachable_inv s hs
  obtain ⟨-, hpub, hpriv, hpaid, -, -, -, -, hshape⟩ := purchase_ok_shape h
  have hid : id < s.datasetCount := by
    by_contra hge
    have := (hU0 id (by omega)).2.1
    rw [this] at hpub
    cases hpub
  have hstep : ∀ o₂ t,
      (t.locked = false ∧ id < t.datasetCount ∧ t.hasAccess id buyer = true ∧
        (t.datasets id).isPublic = true ∧ (t.datasets id).isPrivate = false ∧
        (t.datasets id).isPaid = true) →
      ((stepOp o₂ t).locked = false ∧ id < (stepOp o₂ t).datasetCount ∧
        (stepOp o₂ t).hasAccess id buyer = true ∧
        ((stepOp o₂ t).datasets id).isPublic = true ∧
        ((stepOp o₂ t).datasets id).isPrivate = false ∧
        ((stepOp o₂ t).datasets id).isPaid = true) := by
    intro o₂ t ht
    obtain ⟨hfl, hfc, hfa, hfd⟩ := stepOp_frame o₂ t
    obtain ⟨hcid, hupl, hpubf, hprivf, hpaidf, hpricef⟩ := hfd id ht.2.1
    refine ⟨by rw [hfl]; exact ht.1, by omega, hfa id buyer ht.2.2.1, ?_, ?_, ?_⟩
    · rw [hpubf]; exact ht.2.2.2.1
    · rw [hprivf]; exact ht.2.2.2.2.1
    · rw [hpaidf]; exact ht.2.2.2.2.2
  have hbase : s₁.locked = false ∧ id < s₁.datasetCount ∧
      s₁.hasAccess id buyer = true ∧ (s₁.datasets id).isPublic = true ∧
      (s₁.datasets id).isPrivate = false ∧ (s₁.datasets id).isPaid = true := by
    subst hshape
    exact ⟨hlock0, hid, by simp, by simpa using hpub, by simpa using hpriv,
      by simpa using hpaid⟩
  have hrun := runOps_inv
    (fun t => t.locked = false ∧ id < t.datasetCount ∧
      t.hasAccess id buyer = true ∧ (t.datasets id).isPublic = true ∧
      (t.datasets id).isPrivate = false ∧ (t.datasets id).isPaid = true)
    hstep ops s₁ hbase
  obtain ⟨hL, hC, hA, hPub, hPriv, hPaid⟩ := hrun
  have herr : purchaseDataset buyer id tok' o' (runOps ops s₁) =
      .error SolError.already := by
    unfold purchaseDataset
    rw [if_neg (by simp [hL]), if_neg (by simp [hPub, hPriv]),
      if_neg (by simp [hPaid]), if_pos hA]
  refine ⟨herr, ?_, hA, ?_⟩
  · simp only [stepOp]
    rw [herr]
  · intro t o₂ j u htu
    exact (stepOp_frame o₂ t).2.2.1 j u htu

/-- C6 witness: after buyer 3's successful purchase of dataset 0 in the
reachable state `sW`, an immediate repeat purchase fails with the
`AlreadyPurchased` revert and leaves the state unchanged, and the grant
stays set. -/
theorem purchase_at_most_once_w :
    purchaseDataset 3 0 7 TransferOutcome.success (runOps [] s1W) =
      .error SolError.already ∧
    stepOp (Op.purchase 3 0 7 TransferOutcome.success) (runOps [] s1W) =
      runOps [] s1W ∧
    (runOps [] s1W).hasAccess 0 3 = true :=
  ⟨(purchase_at_most_once sW ⟨1, opsW, rfl⟩ 3 0 7 TransferOutcome.success s1W
      rfl [] 7 TransferOutcome.success).1,
   (purchase_at_most_once sW ⟨1, opsW, rfl⟩ 3 0 7 TransferOutcome.success s1W
      rfl [] 7 TransferOutcome.success).2.1,
   (purchase_at_most_once sW ⟨1, opsW, rfl⟩ 3 0 7 TransferOutcome.success s1W
      rfl [] 7 TransferOutcome.success).2.2.1⟩

/-- C7: in every reachable ledger state, each identity's
`publisherEarnings` entry equals the sum of the `earnings` fields over
all datasets it uploaded. -/
theorem publisher_earnings_invariant (s : ContractState) (hs : Reachable s)
    (u : Nat) : s.publisherEarnings u = earningsSum s u :=
  (reachable_inv s hs).2.2 u

/-- C7 witness: in the reachable post-purchase state `s1W`, publisher
2's ledger (10) equals the earnings sum over their datasets. -/
theorem publisher_earnings_invariant_w :
    s1W.publisherEarnings 2 = earningsSum s1W 2 ∧ s1W.publisherEarnings 2 = 10 :=
  ⟨publisher_earnings_invariant s1W
      ⟨1, opsW ++ [Op.purchase 3 0 7 TransferOutcome.success], rfl⟩ 2,
   by decide⟩

/-- C8: for any state and any `N`, the first page
`getPublicDatasetPage s 0 N` is exactly the first `N` datasets with
`isPublic ∧ ¬isPrivate` in ascending id order (all of them if fewer
exist), and following the returned cursor with any second page size `M`
continues the listing with no overlap and no gap: the two pages
concatenate to the first `N + M` qualifying datasets. -/
theorem pagination_first_and_next (s : ContractState) (N M : Nat)
    (hN : 0 < N) :
    (getPublicDatasetPage s 0 N).1 = (publicDatasetsAsc s).take N ∧
    (getPublicDatasetPage s 0 N).1 ++
      (getPublicDatasetPage s ((getPublicDatasetPage s 0 N).2) M).1 =
      (publicDatasetsAsc s).take (N + M) := by
  have h1 : (getPublicDatasetPage s 0 N).1 = (publicDatasetsAsc s).take N := by
    rw [getPublicDatasetPage_fst]
    simp
  refine ⟨h1, ?_⟩
  rw [h1, getPublicDatasetPage_fst, getPublicDatasetPage_snd]
  by_cases h : 0 < (publicDatasetsAsc s).length
  · rw [if_pos h, Nat.zero_add]
    by_cases hNL : N ≤ (publicDatasetsAsc s).length
    · rw [Nat.min_eq_left hNL, ← List.take_add]
    · rw [Nat.min_eq_right (le_of_lt (not_le.mp hNL))]
      have hTN : (publicDatasetsAsc s).take N = publicDatasetsAsc s :=
        List.take_of_length_le (by omega)
      have hTNM : (publicDatasetsAsc s).take (N + M) = publicDatasetsAsc s :=
        List.take_of_length_le (by omega)
      rw [List.drop_eq_nil_of_le (le_refl _), hTN, hTNM]
      simp
  · rw [if_neg h]
    have hnil : publicDatasetsAsc s = [] := List.length_eq_zero.mp (by omega)
    rw [hnil]
    simp

/-- C8 witness: in `sW` (one qualifying dataset), the first page of size
1 is the full qualifying prefix and chaining the returned cursor yields
no overlap and no gap. -/
theorem pagination_first_and_next_w :
    (getPublicDatasetPage sW 0 1).1 = (publicDatasetsAsc sW).take 1 ∧
    (getPublicDatasetPage sW 0 1).1 ++
      (getPublicDatasetPage sW ((getPublicDatasetPage sW 0 1).2) 2).1 =
      (publicDatasetsAsc sW).take (1 + 2) :=
  pagination_first_and_next sW 1 2 (by decide)

/-- C10 counterexample: the record of a never-assigned id is NOT
necessarily the all-default `Dataset` in reachable states — from a fresh
deployment, `incrementDownloads` on the unassigned id 9 passes its
download guard (the default record is unpaid) and bumps the stored
downloads counter. -/
theorem unassigned_not_default_cex :
    Reachable sBadW ∧ sBadW.datasetCount = 0 ∧
    (sBadW.datasets 9).downloads = 1 ∧ sBadW.datasets 9 ≠ defaultDataset ∧
    exceptIsOk (incrementDownloads 5 9 (initialState 1)) = true :=
  ⟨⟨1, [Op.incDownloads 5 9], rfl⟩, by decide, by decide, by decide, rfl⟩

/-- C10 amended: in every reachable state, a never-assigned id keeps the
default identity fields (zero uploader, not public, not private, not
paid, zero price, zero earnings) — though not necessarily default
counters — so the view guard of `getDataset`/`incrementViews` fails for
every non-zero caller, `purchaseDataset` fails its not-public check for
every caller, token and transfer outcome, and none of these failing
calls mutates the state; the failures are the plain guard reverts, with
no dedicated not-found error. -/
theorem unassigned_record_guards (s : ContractState) (hs : Reachable s)
    (i : Nat) (hi : s.datasetCount ≤ i) :
    (s.datasets i).uploader = 0 ∧ (s.datasets i).isPublic = false ∧
    (s.datasets i).isPrivate = false ∧ (s.datasets i).isPaid = false ∧
    (s.datasets i).priceInFIL = 0 ∧ (s.datasets i).earnings = 0 ∧
    (∀ caller, caller ≠ 0 →
      getDataset caller i s = .error SolError.noView ∧
      incrementViews caller i s = .error SolError.noView ∧
      stepOp (Op.incViews caller i) s = s) ∧
    (∀ caller tok o,
      purchaseDataset caller i tok o s = .error SolError.notPublic ∧
      stepOp (Op.purchase caller i tok o) s = s) := by
  obtain ⟨hlock, hU, -⟩ := reachable_inv s hs
  obtain ⟨hup, hpub, hpriv, hpaid, hprice, hearn, -, -, -⟩ := hU i hi
  have hcv : ∀ caller, caller ≠ 0 → ¬(canView caller i s = true) := by
    intro caller hc hcvt
    unfold canView at hcvt
    simp [hup, hpub] at hcvt
    omega
  refine ⟨hup, hpub, hpriv, hpaid, hprice, hearn, ?_, ?_⟩
  · intro caller hc
    have hview : incrementViews caller i s = .error SolError.noView := by
      unfold incrementViews
      rw [if_neg (hcv caller hc)]
    refine ⟨?_, hview, ?_⟩
    · unfold getDataset
      rw [if_neg (hcv caller hc)]
    · simp only [stepOp]
      rw [hview]
  · intro caller tok o
    have hpur : purchaseDataset caller i tok o s = .error SolError.notPublic := by
      unfold purchaseDataset
      rw [if_neg (by simp [hlock]), if_pos (by simp [hpub])]
    refine ⟨hpur, ?_⟩
    simp only [stepOp]
    rw [hpur]

/-- C10 amended witness: in the reachable state `sW`, the unassigned id
5 has default identity fields and both the view guard and the purchase
not-public check fail for caller 3. -/
theorem unassigned_record_guards_w :
    (sW.datasets 5).uploader = 0 ∧
    getDataset 3 5 sW = .error SolError.noView ∧
    purchaseDataset 3 5 7 TransferOutcome.success sW =
      .error SolError.notPublic :=
  ⟨(unassigned_record_guards sW ⟨1, opsW, rfl⟩ 5 (by decide)).1,
   ((unassigned_record_guards sW ⟨1, opsW, rfl⟩ 5 (by decide)).2.2.2.2.2.2.1
      3 (by decide)).1,
   ((unassigned_record_guards sW ⟨1, opsW, rfl⟩ 5 (by decide)).2.2.2.2.2.2.2
      3 7 TransferOutcome.success).1⟩
